import Mathlib

/-!
Shallow embedding of the recommendation core of the `itmo-chat-bot`
repository (`src/recommender.py`, with the data model of `src/database.py`
and the vector-search collaborator of `src/vector_db.py`).

Python floats are modelled as exact rationals (`ℚ`); the score increments
used by the code (0.3, 0.25, 0.2, 0.15, 0.1) and their clamped sums are
represented exactly.  Python string containment (`needle in haystack`) is
modelled as list-of-characters infix containment, and `str.lower()` is
modelled for the character ranges this repository uses (ASCII latin and
Cyrillic).  The MongoDB-backed stores are modelled as association lists;
`find_one` returns the first record with the given key.
-/

/-- Models Python `str.lower()` on a single character, for the ASCII latin
and Cyrillic ranges that appear in this repository (`А`-`Я` and `Ё`). -/
def pyLowerChar (c : Char) : Char :=
  if 65 ≤ c.toNat ∧ c.toNat ≤ 90 then Char.ofNat (c.toNat + 32)
  else if 0x410 ≤ c.toNat ∧ c.toNat ≤ 0x42F then Char.ofNat (c.toNat + 0x20)
  else if c.toNat = 0x401 then Char.ofNat 0x451
  else c

/-- Models Python `str.lower()` (characterwise). -/
def pyLower (s : String) : String := ⟨s.data.map pyLowerChar⟩

/-- Models the Python expression `needle in haystack` on strings:
contiguous substring containment. -/
def strContains (needle haystack : String) : Bool :=
  decide (needle.data <:+: haystack.data)

/-- `Course` dataclass of `src/database.py`. -/
structure Course where
  name : String
  type : String
  credits : String
  semester : String
  description : String := ""
  skills : List String := []
deriving DecidableEq, Repr

/-- `MasterProgram` dataclass of `src/database.py`. -/
structure MasterProgram where
  id : String
  title : String
  url : String
  description : String
  courses : List Course
  requirements : List String
  skills : List String
  career : List String
deriving DecidableEq, Repr

/-- The user-profile document stored by
`ProgramDatabase.update_user_profile` and read back by
`get_user_profile`.  A key missing from the Mongo document behaves under
`profile.get(key, [])` exactly like the empty list, so each field is a
plain list. -/
structure ProfileData where
  background : List String := []
  interests : List String := []
  skills : List String := []
  goals : List String := []
  preferred_program : String := ""
deriving DecidableEq, Repr

/-- The MongoDB-backed `ProgramDatabase` of `src/database.py`, modelled as
in-memory collections.  `user_profiles` maps a user id to its stored
document; an absent entry models `get_user_profile` returning the falsy
`{}`. -/
structure ProgramDatabase where
  programs : List MasterProgram
  user_profiles : List (Int × ProfileData)
deriving Repr

/-- `ProgramDatabase.get_program`: `find_one({'id': program_id})`, i.e. the
first stored program with the given id. -/
def ProgramDatabase.get_program (db : ProgramDatabase) (program_id : String) :
    Option MasterProgram :=
  db.programs.find? (fun p => p.id == program_id)

/-- `ProgramDatabase.get_all_programs`. -/
def ProgramDatabase.get_all_programs (db : ProgramDatabase) : List MasterProgram :=
  db.programs

/-- `ProgramDatabase.get_elective_courses`: the courses of the program
whose (lowercased) `type` contains the marker `"выборн"`. -/
def ProgramDatabase.get_elective_courses (db : ProgramDatabase)
    (program_id : String) : List Course :=
  match db.get_program program_id with
  | none => []
  | some program =>
      program.courses.filter (fun c => strContains "выборн" (pyLower c.type))

/-- `ProgramDatabase.get_user_profile`: the stored document, or `none` for
the falsy empty dict `{}`. -/
def ProgramDatabase.get_user_profile (db : ProgramDatabase) (user_id : Int) :
    Option ProfileData :=
  (db.user_profiles.find? (fun e => e.1 == user_id)).map (·.2)

/-- The lowercased haystack `(course.name + " " + course.description).lower()`
built by `CourseRecommender._calculate_relevance`. -/
def courseText (course : Course) : String :=
  pyLower (course.name ++ " " ++ course.description)

/-- `CourseRecommender._calculate_relevance` (`src/recommender.py`):
lexical course relevance.  Each loop of the Python code is a fold adding
a fixed weight per matching fragment; the final score is clamped with
`min(score, 1.0)`. -/
def calculate_relevance (course : Course) (profile : ProfileData)
    (program : MasterProgram) : ℚ :=
  let course_text := courseText course
  let s1 := profile.interests.foldl
    (fun sc i => if strContains (pyLower i) course_text then sc + 0.3 else sc) 0
  let s2 := profile.goals.foldl
    (fun sc g => if strContains (pyLower g) course_text then sc + 0.25 else sc) s1
  let s3 := program.skills.foldl
    (fun sc k => if strContains (pyLower k) course_text then sc + 0.15 else sc) s2
  let s4 := profile.background.foldl
    (fun sc b => if strContains (pyLower b) course_text then sc + 0.1 else sc) s3
  min s4 1

/-- Number of fragments of `frags` whose lowercased text occurs in `text`. -/
def matchCount (frags : List String) (text : String) : Nat :=
  frags.countP (fun f => strContains (pyLower f) text)

/-- The haystack `program.description.lower() + " " + " ".join(program.skills).lower()`
of `CourseRecommender._calculate_program_match`. -/
def programText (program : MasterProgram) : String :=
  pyLower program.description ++ " " ++ pyLower (String.intercalate " " program.skills)

/-- The haystack `" ".join(program.career).lower()` of
`CourseRecommender._calculate_program_match`. -/
def careerText (program : MasterProgram) : String :=
  pyLower (String.intercalate " " program.career)

/-- Number of (requirement, background-fragment) pairs with the fragment
(lowercased) contained in the lowercased requirement — the double loop of
`_calculate_program_match`. -/
def reqBgMatches (program : MasterProgram) (profile : ProfileData) : Nat :=
  (program.requirements.map
    (fun req => profile.background.countP
      (fun bg => strContains (pyLower bg) (pyLower req)))).sum

/-- `CourseRecommender._calculate_program_match` (`src/recommender.py`):
lexical program/profile fit. -/
def calculate_program_match (program : MasterProgram) (profile : ProfileData) : ℚ :=
  let program_text := programText program
  let s1 := profile.interests.foldl
    (fun sc i => if strContains (pyLower i) program_text then sc + 0.2 else sc) 0
  let career_text := careerText program
  let s2 := profile.goals.foldl
    (fun sc g => if strContains (pyLower g) career_text then sc + 0.3 else sc) s1
  let s3 := program.requirements.foldl
    (fun sc req => profile.background.foldl
      (fun sc2 bg => if strContains (pyLower bg) (pyLower req) then sc2 + 0.15 else sc2) sc) s2
  min s3 1

/-- One result dict returned by the vector backend
(`QdrantVectorDB.recommend_courses_for_user` /
`recommend_programs_for_user` in `src/vector_db.py`).  Fields are
`Option`s because the consuming code reads them with `dict.get`, which
yields `None` for a missing key; scores are the backend's floats, modelled
as rationals. -/
structure VectorResult where
  id : Option String := none
  score : Option ℚ := none
  name : Option String := none
deriving DecidableEq, Repr

/-- One `vector_db.add_course` call, as issued by
`CourseRecommender.index_courses` (arguments plus the `type`/`semester`
metadata). -/
structure CourseUpsert where
  course_id : String
  program_id : String
  name : String
  description : String
  course_type : String
  semester : String
deriving DecidableEq, Repr

/-- The `CourseRecommender` of `src/recommender.py`.  The Qdrant-backed
collaborator methods it calls are external network services; they are
modelled as oracle fields: `vector_recommend_courses uid pid limit` is the
result list of `vector_db.recommend_courses_for_user`,
`vector_recommend_programs uid limit` that of
`recommend_programs_for_user`, and `add_course_ok` the success flag of
`vector_db.add_course` for a given upsert. -/
structure CourseRecommender where
  db : ProgramDatabase
  use_vector_search : Bool
  vector_recommend_courses : Int → String → Nat → List VectorResult := fun _ _ _ => []
  vector_recommend_programs : Int → Nat → List VectorResult := fun _ _ => []
  add_course_ok : CourseUpsert → Bool := fun _ => true

/-- `CourseRecommender._recommend_courses_vector`: for each backend result,
re-fetch the program and pair the first course whose `name` equals the
result's `"name"` entry with the result's `"score"` (default `0.0`);
results without such a course are dropped. -/
def recommend_courses_vector (rec : CourseRecommender) (user_id : Int)
    (program_id : String) (limit : Nat) : List (Course × ℚ) :=
  let vector_results := rec.vector_recommend_courses user_id program_id limit
  vector_results.filterMap (fun r =>
    match rec.db.get_program program_id with
    | none => none
    | some program =>
        match program.courses.find? (fun c => some c.name == r.name) with
        | some c => some (c, r.score.getD 0)
        | none => none)

/-- `CourseRecommender._recommend_courses_classic`: score every elective
course of the program against the stored profile, stable-sort by
descending score (`list.sort(key=..., reverse=True)` is stable), and take
the first `limit`. -/
def recommend_courses_classic (rec : CourseRecommender) (user_id : Int)
    (program_id : String) (limit : Nat) : List (Course × ℚ) :=
  match rec.db.get_user_profile user_id with
  | none => []
  | some profile =>
      match rec.db.get_program program_id with
      | none => []
      | some program =>
          let elective_courses := rec.db.get_elective_courses program_id
          let recommendations :=
            elective_courses.map (fun c => (c, calculate_relevance c profile program))
          (recommendations.mergeSort (fun a b => decide (b.2 ≤ a.2))).take limit

/-- `CourseRecommender.recommend_courses`: dispatch on `use_vector_search`. -/
def recommend_courses (rec : CourseRecommender) (user_id : Int)
    (program_id : String) (limit : Nat := 5) : List (Course × ℚ) :=
  if rec.use_vector_search then recommend_courses_vector rec user_id program_id limit
  else recommend_courses_classic rec user_id program_id limit

/-- `CourseRecommender._recommend_program_vector`: ask the backend for the
top 10 programs, look each result's `"id"` up in the database (a missing
`"id"` key, i.e. `get_program(None)`, matches no stored program) and keep
the `(program, score)` pairs that resolve. -/
def recommend_program_vector (rec : CourseRecommender) (user_id : Int) :
    List (MasterProgram × ℚ) :=
  let vector_results := rec.vector_recommend_programs user_id 10
  vector_results.filterMap (fun r =>
    match r.id with
    | none => none
    | some pid =>
        match rec.db.get_program pid with
        | some program => some (program, r.score.getD 0)
        | none => none)

/-- `CourseRecommender._recommend_program_classic`: score every program in
the catalog against the stored profile and stable-sort by descending
score; no truncation. -/
def recommend_program_classic (rec : CourseRecommender) (user_id : Int) :
    List (MasterProgram × ℚ) :=
  match rec.db.get_user_profile user_id with
  | none => []
  | some profile =>
      let recommendations :=
        (rec.db.get_all_programs).map (fun p => (p, calculate_program_match p profile))
      recommendations.mergeSort (fun a b => decide (b.2 ≤ a.2))

/-- `CourseRecommender.recommend_program`: dispatch on `use_vector_search`. -/
def recommend_program (rec : CourseRecommender) (user_id : Int) :
    List (MasterProgram × ℚ) :=
  if rec.use_vector_search then recommend_program_vector rec user_id
  else recommend_program_classic rec user_id

/-- Python `round`-to-even of a rational, used to model the `"{:.0%}"`
format specifier (all scores reachable in this code are multiples of
1/20, for which `score * 100` is an integer and no rounding occurs). -/
def pyRoundHalfEven (q : ℚ) : ℤ :=
  if q - ⌊q⌋ < 1/2 then ⌊q⌋
  else if q - ⌊q⌋ > 1/2 then ⌊q⌋ + 1
  else if 2 ∣ ⌊q⌋ then ⌊q⌋ else ⌊q⌋ + 1

/-- The f-string fragment `f"{score:.0%}"`. -/
def pyFormatPercent0 (q : ℚ) : String :=
  toString (pyRoundHalfEven (q * 100)) ++ "%"

/-- The mandatory-course filter of `CourseRecommender.get_study_plan`:
courses whose lowercased `type` contains `"обяз"`. -/
def mandatory_of (program : MasterProgram) : List Course :=
  program.courses.filter (fun c => strContains "обяз" (pyLower c.type))

/-- The f-string `f"  • {course.name} ({course.semester} семестр)\n"` of
`get_study_plan`'s mandatory loop. -/
def mandatoryLine (c : Course) : String :=
  "  • " ++ c.name ++ " (" ++ c.semester ++ " семестр)\n"

/-- The f-string `f"  • {course.name} (релевантность: {score:.0%})\n"` of
`get_study_plan`'s recommended loop. -/
def recommendedLine (cs : Course × ℚ) : String :=
  "  • " ++ cs.1.name ++ " (релевантность: " ++ pyFormatPercent0 cs.2 ++ ")\n"

/-- The mandatory-courses block accumulated by the first loop of
`get_study_plan` (one `mandatoryLine` per course). -/
def planMandatorySection (mand : List Course) : String :=
  mand.foldl (fun acc c => acc ++ mandatoryLine c) ""

/-- The recommended-electives block accumulated by the second loop of
`get_study_plan`. -/
def planRecommendedSection (recs : List (Course × ℚ)) : String :=
  recs.foldl (fun acc cs => acc ++ recommendedLine cs) ""

/-- The closing advice block of `get_study_plan` (appended to the
accumulated plan when a profile is stored). -/
def planHints (profile_data : Option ProfileData) (plan4 : String) : String :=
  match profile_data with
  | none => plan4
  | some prof =>
      let plan5 := if prof.interests.isEmpty then plan4
        else plan4 ++ "  • Фокусируйтесь на дисциплинах, связанных с: "
          ++ String.intercalate ", " (prof.interests.take 3) ++ "\n"
      if prof.goals.isEmpty then plan5
      else plan5 ++ "  • Для достижения целей ("
        ++ String.intercalate ", " (prof.goals.take 2)
        ++ ") выбирайте соответствующие элективы\n"

/-- The tail of `get_study_plan` after the recommended-electives block. -/
def planAfterRecommended (profile_data : Option ProfileData) (plan3 : String) : String :=
  planHints profile_data (plan3 ++ "💡 Рекомендации по обучению:\n")

/-- The tail of `get_study_plan` after the mandatory block. -/
def planAfterMandatory (rec : CourseRecommender) (user_id : Int) (program_id : String)
    (profile_data : Option ProfileData) (plan2 : String) : String :=
  let recommended := recommend_courses rec user_id program_id 5
  planAfterRecommended profile_data
    (if recommended.isEmpty then plan2
     else plan2 ++ "⭐ Рекомендованные выборные дисциплины:\n"
       ++ planRecommendedSection recommended ++ "\n")

/-- `CourseRecommender.get_study_plan`: the composite plan text.  The
Python code appends line-by-line onto one accumulator; here each loop's
lines are grouped into a section string and the tail of the accumulation
is staged into `planAfterMandatory`/`planAfterRecommended`/`planHints`,
which yields the identical string by associativity of concatenation. -/
def get_study_plan (rec : CourseRecommender) (user_id : Int) (program_id : String) :
    String :=
  match rec.db.get_program program_id with
  | none => "Программа не найдена"
  | some program =>
      let profile_data := rec.db.get_user_profile user_id
      let plan1 := "📋 Рекомендованный учебный план: " ++ program.title ++ "\n\n"
      let mandatory := mandatory_of program
      let plan2 := if mandatory.isEmpty then plan1
        else plan1 ++ "📌 Обязательные дисциплины:\n"
          ++ planMandatorySection (mandatory.take 10) ++ "\n"
      planAfterMandatory rec user_id program_id profile_data plan2

/-- The per-program inner loop of `index_courses` for a known program id:
one `add_course` call per course, counting successes. -/
def indexCoursesOf (rec : CourseRecommender) (pid : String) (courses : List Course)
    (acc : Nat × List CourseUpsert) : Nat × List CourseUpsert :=
  courses.foldl (fun acc c =>
    let call : CourseUpsert :=
      { course_id := pid ++ "_" ++ c.name, program_id := pid, name := c.name,
        description := c.description, course_type := c.type, semester := c.semester }
    (if rec.add_course_ok call then acc.1 + 1 else acc.1, acc.2 ++ [call])) acc

/-- `CourseRecommender.index_courses`.  The value is the returned count
paired with the trace of `add_course` calls issued; `none` models the
`AttributeError` the all-programs branch raises when it reaches a course
(it reads `program.program_id`, a field `MasterProgram` does not have —
 it is named `id`), which happens before any `add_course` call.
A `program_id` argument of `None` or `""` is falsy and selects the
all-programs branch. -/
def index_courses (rec : CourseRecommender) (program_id : Option String) :
    Option (Nat × List CourseUpsert) :=
  if rec.use_vector_search = false then some (0, [])
  else
    let truthy := match program_id with
      | none => false
      | some pid => pid ≠ ""
    if truthy then
      match program_id with
      | none => some (0, [])
      | some pid =>
          match rec.db.get_program pid with
          | none => some (0, [])
          | some program => some (indexCoursesOf rec pid program.courses (0, []))
    else
      if (rec.db.get_all_programs).all (fun p => p.courses.isEmpty) then some (0, [])
      else none

/-- One `vector_db.add_program` call, as issued by
`CourseRecommender.index_programs`. -/
structure ProgramUpsert where
  program_id : String
  title : String
  description : String
  skills : List String
  career : List String
  requirements : List String
deriving DecidableEq, Repr

/-- `CourseRecommender.index_programs`: returned count paired with the
trace of `add_program` calls issued.  As with `index_courses`, the loop
body reads the non-existent `program.program_id` attribute, so any
non-empty catalog raises `AttributeError` (modelled as `none`) before any
`add_program` call; with the vector flag off, or an empty catalog, it
returns 0 having issued no backend call. -/
def index_programs (rec : CourseRecommender) : Option (Nat × List ProgramUpsert) :=
  if rec.use_vector_search = false then some (0, [])
  else if (rec.db.get_all_programs).isEmpty then some (0, [])
  else none

/-- A fold that adds a fixed weight `w` for every element satisfying `p`
adds `w * count` to its initial value. -/
theorem foldl_weight_count (w : ℚ) (p : String → Bool) (l : List String) (a : ℚ) :
    l.foldl (fun sc x => if p x then sc + w else sc) a = a + w * l.countP p := by
  induction l generalizing a with
  | nil => simp
  | cons x xs ih =>
      rw [List.foldl_cons, List.countP_cons]
      by_cases h : p x = true
      · rw [if_pos h, ih, if_pos h]
        push_cast
        ring
      · rw [if_neg h, ih, if_neg h]
        simp

/-- Closed form of `calculate_relevance`: weighted fragment-match counts,
clamped at 1. -/
theorem calculate_relevance_eq (course : Course) (profile : ProfileData)
    (program : MasterProgram) :
    calculate_relevance course profile program =
      min ((0.3 : ℚ) * (matchCount profile.interests (courseText course) : ℚ)
        + 0.25 * (matchCount profile.goals (courseText course) : ℚ)
        + 0.15 * (matchCount program.skills (courseText course) : ℚ)
        + 0.1 * (matchCount profile.background (courseText course) : ℚ)) 1 := by
  simp only [calculate_relevance, matchCount, foldl_weight_count]
  ring_nf

/-- A fold whose body adds `w * cnt x` per element adds `w` times the sum
of the counts. -/
theorem foldl_weight_sum (w : ℚ) (cnt : String → ℕ) (l : List String) (a : ℚ) :
    l.foldl (fun sc x => sc + w * (cnt x : ℚ)) a = a + w * ((l.map cnt).sum : ℚ) := by
  induction l generalizing a with
  | nil => simp
  | cons x xs ih =>
      rw [List.foldl_cons, ih, List.map_cons, List.sum_cons]
      push_cast
      ring

/-- Closed form of `calculate_program_match`: weighted match counts,
clamped at 1. -/
theorem calculate_program_match_eq (program : MasterProgram) (profile : ProfileData) :
    calculate_program_match program profile =
      min ((0.2 : ℚ) * (matchCount profile.interests (programText program) : ℚ)
        + 0.3 * (matchCount profile.goals (careerText program) : ℚ)
        + 0.15 * (reqBgMatches program profile : ℚ)) 1 := by
  simp only [calculate_program_match, matchCount, reqBgMatches, foldl_weight_count,
    foldl_weight_sum]
  ring_nf

/-- The descending stable sort used by the recommender is pairwise
non-increasing in the score component. -/
theorem pairwise_mergeSort_desc {α : Type} (l : List (α × ℚ)) :
    (l.mergeSort (fun a b => decide (b.2 ≤ a.2))).Pairwise (fun a b => b.2 ≤ a.2) := by
  have h := @List.sorted_mergeSort (α × ℚ) (fun a b => decide (b.2 ≤ a.2))
    (fun a b c hab hbc => by
      simp only [decide_eq_true_eq] at *
      exact le_trans hbc hab)
    (fun a b => by
      simp only [Bool.or_eq_true, decide_eq_true_eq]
      exact le_total b.2 a.2) l
  exact h.imp (fun hab => of_decide_eq_true hab)

/-- Stability of the descending sort: the elements of any one score keep
their input order (their subsequence is unchanged by the sort). -/
theorem mergeSort_desc_filter_eq {α : Type} (l : List (α × ℚ)) (s : ℚ) :
    (l.mergeSort (fun a b => decide (b.2 ≤ a.2))).filter (fun x => decide (x.2 = s)) =
      l.filter (fun x => decide (x.2 = s)) := by
  have hsubl : List.Sublist (l.filter (fun x => decide (x.2 = s)))
      (l.mergeSort (fun a b => decide (b.2 ≤ a.2))) := by
    apply List.sublist_mergeSort
      (fun a b c hab hbc => by
        simp only [decide_eq_true_eq] at *
        exact le_trans hbc hab)
      (fun a b => by
        simp only [Bool.or_eq_true, decide_eq_true_eq]
        exact le_total b.2 a.2)
    · apply List.pairwise_of_forall_mem_list
      intro a ha b hb
      have ha' : a.2 = s := of_decide_eq_true (List.mem_filter.mp ha).2
      have hb' : b.2 = s := of_decide_eq_true (List.mem_filter.mp hb).2
      simp [ha', hb']
    · exact List.filter_sublist l
  have h1 : List.Sublist (l.filter (fun x => decide (x.2 = s)))
      ((l.mergeSort (fun a b => decide (b.2 ≤ a.2))).filter (fun x => decide (x.2 = s))) := by
    have h2 := hsubl.filter (fun x => decide (x.2 = s))
    rwa [List.filter_filter, (by
      funext x
      cases h : decide (x.2 = s) <;> simp : (fun x : α × ℚ =>
        decide (x.2 = s) && decide (x.2 = s)) = fun x => decide (x.2 = s))] at h2
  have hperm : List.Perm ((l.mergeSort (fun a b => decide (b.2 ≤ a.2))).filter
      (fun x => decide (x.2 = s))) (l.filter (fun x => decide (x.2 = s))) :=
    (List.mergeSort_perm l _).filter _
  exact (h1.eq_of_length hperm.length_eq.symm).symm

/-- Substring containment survives appending on the right. -/
theorem strContains_append_left (n s t : String) (h : strContains n s = true) :
    strContains n (s ++ t) = true := by
  simp only [strContains, decide_eq_true_eq, String.data_append] at *
  exact h.trans ⟨[], t.data, by simp⟩

/-- Substring containment survives prepending on the left. -/
theorem strContains_append_right (n s t : String) (h : strContains n t = true) :
    strContains n (s ++ t) = true := by
  simp only [strContains, decide_eq_true_eq, String.data_append] at *
  exact h.trans ⟨s.data, [], by simp⟩

theorem strContains_self (s : String) : strContains s s = true := by
  simp [strContains]

/-- Containment survives a `if c then s else s ++ t` extension step. -/
theorem strContains_ite_extend (n s t : String) (c : Bool) (h : strContains n s = true) :
    strContains n (if c then s else s ++ t) = true := by
  cases c
  · simpa using strContains_append_left n s t h
  · simpa using h

/-- A left fold that appends a string per element preserves containment in
its accumulator. -/
theorem strContains_foldl_acc {α : Type} (f : α → String) (l : List α) (init n : String)
    (h : strContains n init = true) :
    strContains n (l.foldl (fun acc x => acc ++ f x) init) = true := by
  induction l generalizing init with
  | nil => exact h
  | cons x xs ih => exact ih _ (strContains_append_left n init (f x) h)

/-- A left fold that appends a string per element contains the string of
each element. -/
theorem strContains_foldl_mem {α : Type} (f : α → String) {c : α} (l : List α)
    (n : String) (hn : strContains n (f c) = true) :
    ∀ init : String, c ∈ l → strContains n (l.foldl (fun acc x => acc ++ f x) init) = true := by
  induction l with
  | nil => intro _ hc; cases hc
  | cons x xs ih =>
      intro init hc
      rcases List.mem_cons.mp hc with h | h
      · subst h
        exact strContains_foldl_acc f xs _ n (strContains_append_right n init (f c) hn)
      · exact ih _ h

/-- Containment in either branch gives containment in an `if`. -/
theorem strContains_ite (n a b : String) (c : Bool) (ha : strContains n a = true)
    (hb : strContains n b = true) : strContains n (if c then a else b) = true := by
  cases c
  · simpa using hb
  · simpa using ha

theorem strContains_planHints (pd : Option ProfileData) (plan4 n : String)
    (h : strContains n plan4 = true) : strContains n (planHints pd plan4) = true := by
  unfold planHints
  cases pd with
  | none => exact h
  | some prof =>
      have h5 : strContains n (if prof.interests.isEmpty then plan4
          else plan4 ++ "  • Фокусируйтесь на дисциплинах, связанных с: "
            ++ String.intercalate ", " (prof.interests.take 3) ++ "\n") = true :=
        strContains_ite n _ _ prof.interests.isEmpty h
          (strContains_append_left n _ _ (strContains_append_left n _ _
            (strContains_append_left n _ _ h)))
      exact strContains_ite n _ _ prof.goals.isEmpty h5
        (strContains_append_left n _ _ (strContains_append_left n _ _
          (strContains_append_left n _ _ h5)))

theorem strContains_planAfterRecommended (pd : Option ProfileData) (plan3 n : String)
    (h : strContains n plan3 = true) :
    strContains n (planAfterRecommended pd plan3) = true := by
  unfold planAfterRecommended
  exact strContains_planHints _ _ _ (strContains_append_left n _ _ h)

theorem strContains_planAfterMandatory (rec : CourseRecommender) (user_id : Int)
    (program_id : String) (pd : Option ProfileData) (plan2 n : String)
    (h : strContains n plan2 = true) :
    strContains n (planAfterMandatory rec user_id program_id pd plan2) = true := by
  unfold planAfterMandatory
  apply strContains_planAfterRecommended
  exact strContains_ite n plan2 _ _ h
    (strContains_append_left n _ _ (strContains_append_left n _ _
      (strContains_append_left n _ _ h)))

theorem strContains_planAfterMandatory_sec (rec : CourseRecommender) (user_id : Int)
    (program_id : String) (pd : Option ProfileData) (plan2 n : String)
    (hne : (recommend_courses rec user_id program_id 5).isEmpty = false)
    (h : strContains n (planRecommendedSection (recommend_courses rec user_id program_id 5)) = true) :
    strContains n (planAfterMandatory rec user_id program_id pd plan2) = true := by
  unfold planAfterMandatory
  apply strContains_planAfterRecommended
  simp only [hne, Bool.false_eq_true, if_false]
  exact strContains_append_left n _ _ (strContains_append_right n _ _ h)

theorem name_in_mandatoryLine (c : Course) : strContains c.name (mandatoryLine c) = true := by
  unfold mandatoryLine
  exact strContains_append_left _ _ _ (strContains_append_left _ _ _
    (strContains_append_left _ _ _ (strContains_append_right _ _ _ (strContains_self _))))

theorem name_in_planMandatorySection {c : Course} {l : List Course} (hc : c ∈ l) :
    strContains c.name (planMandatorySection l) = true := by
  unfold planMandatorySection
  exact strContains_foldl_mem mandatoryLine l c.name (name_in_mandatoryLine c) "" hc

theorem name_in_recommendedLine (cs : Course × ℚ) :
    strContains cs.1.name (recommendedLine cs) = true := by
  unfold recommendedLine
  exact strContains_append_left _ _ _ (strContains_append_left _ _ _
    (strContains_append_left _ _ _ (strContains_append_right _ _ _ (strContains_self _))))

theorem name_in_planRecommendedSection {cs : Course × ℚ} {l : List (Course × ℚ)}
    (hc : cs ∈ l) : strContains cs.1.name (planRecommendedSection l) = true := by
  unfold planRecommendedSection
  exact strContains_foldl_mem recommendedLine l cs.1.name (name_in_recommendedLine cs) "" hc

theorem pct_in_recommendedLine (cs : Course × ℚ) :
    strContains (pyFormatPercent0 cs.2) (recommendedLine cs) = true := by
  unfold recommendedLine
  exact strContains_append_left _ _ _ (strContains_append_right _ _ _ (strContains_self _))

theorem pct_in_planRecommendedSection {cs : Course × ℚ} {l : List (Course × ℚ)}
    (hc : cs ∈ l) : strContains (pyFormatPercent0 cs.2) (planRecommendedSection l) = true := by
  unfold planRecommendedSection
  exact strContains_foldl_mem recommendedLine l (pyFormatPercent0 cs.2)
    (pct_in_recommendedLine cs) "" hc

/-- Scenario of claim C1 (spec end-to-end scenario 2): a course whose text
contains the fragments "nlp", "ml" and "data scientist". -/
def scen2Course : Course :=
  { name := "Natural Language Processing", type := "выборная", credits := "3",
    semester := "2", description := "nlp and ml methods for the data scientist role" }

def scen2Profile : ProfileData :=
  { interests := ["nlp", "ml"], goals := ["data scientist"] }

def scen2Program : MasterProgram :=
  { id := "ai", title := "AI", url := "", description := "", courses := [scen2Course],
    requirements := [], skills := [], career := [] }

/-- C1: for every profile and course, the lexical course relevance score
equals `min(0.30*I + 0.25*G + 0.15*S + 0.10*B, 1.0)` where `I`, `G`, `S`,
`B` count the matching interest fragments, goal fragments, owning-program
skill tags and background fragments; in particular two matching interests
plus one matching goal (and no other matches) score 0.85. -/
theorem C1_course_score_closed_form :
    (∀ (course : Course) (profile : ProfileData) (program : MasterProgram),
      calculate_relevance course profile program =
        min ((0.3 : ℚ) * (matchCount profile.interests (courseText course) : ℚ)
          + 0.25 * (matchCount profile.goals (courseText course) : ℚ)
          + 0.15 * (matchCount program.skills (courseText course) : ℚ)
          + 0.1 * (matchCount profile.background (courseText course) : ℚ)) 1)
    ∧ calculate_relevance scen2Course scen2Profile scen2Program = 0.85 := by
  constructor
  · exact calculate_relevance_eq
  · rw [calculate_relevance_eq]
    have h1 : matchCount scen2Profile.interests (courseText scen2Course) = 2 := by decide
    have h2 : matchCount scen2Profile.goals (courseText scen2Course) = 1 := by decide
    have h3 : matchCount scen2Program.skills (courseText scen2Course) = 0 := by decide
    have h4 : matchCount scen2Profile.background (courseText scen2Course) = 0 := by decide
    rw [h1, h2, h3, h4]
    norm_num

/-- Predicate written from claim C2's own wording (for refutation): some
fragment of the profile's interests, goals, skills or background occurs
(lowercased) in the course's lowercased name+description. -/
def claimProfileFragmentInCourse (p : ProfileData) (c : Course) : Bool :=
  (p.interests ++ p.goals ++ p.skills ++ p.background).any
    (fun f => strContains (pyLower f) (courseText c))

def c2Course : Course :=
  { name := "ml basics", type := "выборная", credits := "", semester := "",
    description := "" }

def c2Profile : ProfileData := { skills := ["ml"] }

def c2Program : MasterProgram :=
  { id := "p", title := "", url := "", description := "", courses := [c2Course],
    requirements := [], skills := [], career := [] }

/-- C2 as stated is false: the course scorer never reads the profile's own
`skills` field (it reads the program's skill tags), so a profile whose
only matching fragment is a skill still scores exactly 0. -/
theorem C2_counterexample :
    ¬ (calculate_relevance c2Course c2Profile c2Program = 0 ↔
        claimProfileFragmentInCourse c2Profile c2Course = false) := by
  intro hiff
  have hscore : calculate_relevance c2Course c2Profile c2Program = 0 := by
    rw [calculate_relevance_eq]
    have h1 : matchCount c2Profile.interests (courseText c2Course) = 0 := by decide
    have h2 : matchCount c2Profile.goals (courseText c2Course) = 0 := by decide
    have h3 : matchCount c2Program.skills (courseText c2Course) = 0 := by decide
    have h4 : matchCount c2Profile.background (courseText c2Course) = 0 := by decide
    rw [h1, h2, h3, h4]
    norm_num
  have hfrag : claimProfileFragmentInCourse c2Profile c2Course = true := by decide
  have := hiff.mp hscore
  rw [hfrag] at this
  cases this

/-- C2 (amended): the lexical course score is exactly 0 iff no fragment of
the profile's interests, goals or background, and no skill tag of the
owning program, occurs in the course's lowercased name+description. -/
theorem C2_amended_zero_iff (course : Course) (profile : ProfileData)
    (program : MasterProgram) :
    calculate_relevance course profile program = 0 ↔
      (matchCount profile.interests (courseText course) = 0 ∧
       matchCount profile.goals (courseText course) = 0 ∧
       matchCount program.skills (courseText course) = 0 ∧
       matchCount profile.background (courseText course) = 0) := by
  rw [calculate_relevance_eq]
  have hI := Nat.cast_nonneg (α := ℚ) (matchCount profile.interests (courseText course))
  have hG := Nat.cast_nonneg (α := ℚ) (matchCount profile.goals (courseText course))
  have hS := Nat.cast_nonneg (α := ℚ) (matchCount program.skills (courseText course))
  have hB := Nat.cast_nonneg (α := ℚ) (matchCount profile.background (courseText course))
  constructor
  · intro h
    have hSum : (0.3 : ℚ) * (matchCount profile.interests (courseText course) : ℚ)
        + 0.25 * (matchCount profile.goals (courseText course) : ℚ)
        + 0.15 * (matchCount program.skills (courseText course) : ℚ)
        + 0.1 * (matchCount profile.background (courseText course) : ℚ) = 0 := by
      rcases le_total ((0.3 : ℚ) * (matchCount profile.interests (courseText course) : ℚ)
          + 0.25 * (matchCount profile.goals (courseText course) : ℚ)
          + 0.15 * (matchCount program.skills (courseText course) : ℚ)
          + 0.1 * (matchCount profile.background (courseText course) : ℚ)) 1 with hle | hle
      · rwa [min_eq_left hle] at h
      · rw [min_eq_right hle] at h
        norm_num at h
    have hIc : (matchCount profile.interests (courseText course) : ℚ) = 0 := by linarith
    have hGc : (matchCount profile.goals (courseText course) : ℚ) = 0 := by linarith
    have hSc : (matchCount program.skills (courseText course) : ℚ) = 0 := by linarith
    have hBc : (matchCount profile.background (courseText course) : ℚ) = 0 := by linarith
    exact ⟨by exact_mod_cast hIc, by exact_mod_cast hGc, by exact_mod_cast hSc,
      by exact_mod_cast hBc⟩
  · rintro ⟨h1, h2, h3, h4⟩
    rw [h1, h2, h3, h4]
    norm_num

/-- C5: both lexical scorers stay in [0, 1], and each score is a
non-decreasing function of its match counts (capped at 1 rather than
summed unboundedly). -/
theorem C5_scores_bounded_and_monotone :
    (∀ (course : Course) (profile : ProfileData) (program : MasterProgram),
      0 ≤ calculate_relevance course profile program ∧
        calculate_relevance course profile program ≤ 1)
    ∧ (∀ (program : MasterProgram) (profile : ProfileData),
      0 ≤ calculate_program_match program profile ∧
        calculate_program_match program profile ≤ 1)
    ∧ (∀ (c c' : Course) (p p' : ProfileData) (g g' : MasterProgram),
        matchCount p.interests (courseText c) ≤ matchCount p'.interests (courseText c') →
        matchCount p.goals (courseText c) ≤ matchCount p'.goals (courseText c') →
        matchCount g.skills (courseText c) ≤ matchCount g'.skills (courseText c') →
        matchCount p.background (courseText c) ≤ matchCount p'.background (courseText c') →
        calculate_relevance c p g ≤ calculate_relevance c' p' g')
    ∧ (∀ (g g' : MasterProgram) (p p' : ProfileData),
        matchCount p.interests (programText g) ≤ matchCount p'.interests (programText g') →
        matchCount p.goals (careerText g) ≤ matchCount p'.goals (careerText g') →
        reqBgMatches g p ≤ reqBgMatches g' p' →
        calculate_program_match g p ≤ calculate_program_match g' p') := by
  refine ⟨?_, ?_, ?_, ?_⟩
  · intro course profile program
    rw [calculate_relevance_eq]
    constructor
    · exact le_min (by positivity) (by norm_num)
    · exact min_le_right _ _
  · intro program profile
    rw [calculate_program_match_eq]
    constructor
    · exact le_min (by positivity) (by norm_num)
    · exact min_le_right _ _
  · intro c c' p p' g g' h1 h2 h3 h4
    rw [calculate_relevance_eq, calculate_relevance_eq]
    refine min_le_min ?_ le_rfl
    have c1 : (matchCount p.interests (courseText c) : ℚ) ≤
        (matchCount p'.interests (courseText c') : ℚ) := by exact_mod_cast h1
    have c2 : (matchCount p.goals (courseText c) : ℚ) ≤
        (matchCount p'.goals (courseText c') : ℚ) := by exact_mod_cast h2
    have c3 : (matchCount g.skills (courseText c) : ℚ) ≤
        (matchCount g'.skills (courseText c') : ℚ) := by exact_mod_cast h3
    have c4 : (matchCount p.background (courseText c) : ℚ) ≤
        (matchCount p'.background (courseText c') : ℚ) := by exact_mod_cast h4
    nlinarith
  · intro g g' p p' h1 h2 h3
    rw [calculate_program_match_eq, calculate_program_match_eq]
    refine min_le_min ?_ le_rfl
    have c1 : (matchCount p.interests (programText g) : ℚ) ≤
        (matchCount p'.interests (programText g') : ℚ) := by exact_mod_cast h1
    have c2 : (matchCount p.goals (careerText g) : ℚ) ≤
        (matchCount p'.goals (careerText g') : ℚ) := by exact_mod_cast h2
    have c3 : (reqBgMatches g p : ℚ) ≤ (reqBgMatches g' p' : ℚ) := by exact_mod_cast h3
    nlinarith

/-- C8: extending the profile's interests with one additional fragment
that matches the course's lowercased name+description never decreases the
lexical course score. -/
theorem C8_add_matching_interest_monotone (course : Course) (profile : ProfileData)
    (program : MasterProgram) (f : String)
    (h : strContains (pyLower f) (courseText course) = true) :
    calculate_relevance course profile program ≤
      calculate_relevance course
        { profile with interests := profile.interests ++ [f] } program := by
  rw [calculate_relevance_eq, calculate_relevance_eq]
  dsimp only
  refine min_le_min ?_ le_rfl
  have hI : matchCount (profile.interests ++ [f]) (courseText course) =
      matchCount profile.interests (courseText course) + 1 := by
    unfold matchCount
    rw [List.countP_append]
    simp [h]
  rw [hI]
  push_cast
  linarith

/-- C3: under the lexical strategy, `recommend_courses` is sorted in
non-increasing score order, ties kept in catalog insertion order (stable
sort: for every score, the tied pairs form a subsequence of the scored
catalog-ordered elective list), has length at most `limit`, is empty for
`limit = 0`, and contains every eligible elective when `limit` is at
least the number available. -/
theorem C3_lexical_course_ranking (rec : CourseRecommender) (user_id : Int)
    (program_id : String) (limit : Nat) (profile : ProfileData)
    (program : MasterProgram)
    (hflag : rec.use_vector_search = false)
    (hp : rec.db.get_user_profile user_id = some profile)
    (hg : rec.db.get_program program_id = some program) :
    (recommend_courses rec user_id program_id limit).length ≤ limit ∧
    (limit = 0 → recommend_courses rec user_id program_id limit = []) ∧
    (recommend_courses rec user_id program_id limit).Pairwise (fun a b => b.2 ≤ a.2) ∧
    (∀ s : ℚ, List.Sublist
        ((recommend_courses rec user_id program_id limit).filter
          (fun x => decide (x.2 = s)))
        (((rec.db.get_elective_courses program_id).map
            (fun c => (c, calculate_relevance c profile program))).filter
          (fun x => decide (x.2 = s)))) ∧
    ((rec.db.get_elective_courses program_id).length ≤ limit →
      ∀ c ∈ rec.db.get_elective_courses program_id,
        (c, calculate_relevance c profile program) ∈
          recommend_courses rec user_id program_id limit) := by
  have hout : recommend_courses rec user_id program_id limit =
      (((rec.db.get_elective_courses program_id).map
          (fun c => (c, calculate_relevance c profile program))).mergeSort
        (fun a b => decide (b.2 ≤ a.2))).take limit := by
    unfold recommend_courses recommend_courses_classic
    rw [hflag]
    simp only [Bool.false_eq_true, if_false, hp, hg]
  rw [hout]
  refine ⟨?_, ?_, ?_, ?_, ?_⟩
  · exact List.length_take_le _ _
  · intro h
    rw [h, List.take_zero]
  · exact (pairwise_mergeSort_desc _).sublist (List.take_sublist _ _)
  · intro s
    have h1 := (List.take_sublist limit
      (((rec.db.get_elective_courses program_id).map
          (fun c => (c, calculate_relevance c profile program))).mergeSort
        (fun a b => decide (b.2 ≤ a.2)))).filter (fun x => decide (x.2 = s))
    rwa [mergeSort_desc_filter_eq] at h1
  · intro hlen c hc
    rw [List.take_of_length_le]
    · rw [List.mem_mergeSort]
      exact List.mem_map.mpr ⟨c, hc, rfl⟩
    · rw [List.length_mergeSort, List.length_map]
      exact hlen

def c3Profile : ProfileData := { interests := ["ml"] }

def c3Course : Course :=
  { name := "ML", type := "выборная", credits := "3", semester := "1",
    description := "ml course" }

def c3Program : MasterProgram :=
  { id := "ai", title := "AI", url := "", description := "", courses := [c3Course],
    requirements := [], skills := [], career := [] }

def c3rec : CourseRecommender :=
  { db := { programs := [c3Program], user_profiles := [(1, c3Profile)] },
    use_vector_search := false }

/-- Witness for C3 on a one-course catalog. -/
theorem C3_witness :
    c3rec.use_vector_search = false ∧
    c3rec.db.get_user_profile 1 = some c3Profile ∧
    c3rec.db.get_program "ai" = some c3Program ∧
    ((recommend_courses c3rec 1 "ai" 5).length ≤ 5 ∧
     ((5 : Nat) = 0 → recommend_courses c3rec 1 "ai" 5 = []) ∧
     (recommend_courses c3rec 1 "ai" 5).Pairwise (fun a b => b.2 ≤ a.2) ∧
     (∀ s : ℚ, List.Sublist
        ((recommend_courses c3rec 1 "ai" 5).filter (fun x => decide (x.2 = s)))
        (((c3rec.db.get_elective_courses "ai").map
            (fun c => (c, calculate_relevance c c3Profile c3Program))).filter
          (fun x => decide (x.2 = s)))) ∧
     ((c3rec.db.get_elective_courses "ai").length ≤ 5 →
      ∀ c ∈ c3rec.db.get_elective_courses "ai",
        (c, calculate_relevance c c3Profile c3Program) ∈
          recommend_courses c3rec 1 "ai" 5)) :=
  ⟨rfl, rfl, rfl, C3_lexical_course_ranking c3rec 1 "ai" 5 c3Profile c3Program rfl rfl rfl⟩

def c4Courses : List Course :=
  [{ name := "K01", type := "обязательная", credits := "", semester := "1" },
   { name := "K02", type := "обязательная", credits := "", semester := "1" },
   { name := "K03", type := "обязательная", credits := "", semester := "1" },
   { name := "K04", type := "обязательная", credits := "", semester := "1" },
   { name := "K05", type := "обязательная", credits := "", semester := "1" },
   { name := "K06", type := "обязательная", credits := "", semester := "1" },
   { name := "K07", type := "обязательная", credits := "", semester := "1" },
   { name := "K08", type := "обязательная", credits := "", semester := "1" },
   { name := "K09", type := "обязательная", credits := "", semester := "1" },
   { name := "K10", type := "обязательная", credits := "", semester := "1" },
   { name := "K11", type := "обязательная", credits := "", semester := "1" }]

def c4Program : MasterProgram :=
  { id := "p1", title := "P", url := "", description := "", courses := c4Courses,
    requirements := [], skills := [], career := [] }

def c4rec : CourseRecommender :=
  { db := { programs := [c4Program], user_profiles := [] },
    use_vector_search := false }

set_option maxRecDepth 20000 in
/-- C4 as stated is false: `get_study_plan` lists only the first ten
mandatory courses (`mandatory[:10]`), so the eleventh mandatory course of
this program is mandatory yet absent from the plan text. -/
theorem C4_counterexample :
    ({ name := "K11", type := "обязательная", credits := "",
       semester := "1" } : Course) ∈ mandatory_of c4Program ∧
      strContains "K11" (get_study_plan c4rec 0 "p1") = false := by
  constructor
  · decide
  · decide

/-- C4 (amended): the study plan contains the program's mandatory courses
up to the first ten, in catalog insertion order (they form a subsequence
of the catalog), together with the top-5 recommended electives with their
formatted scores. -/
theorem C4_amended_study_plan (rec : CourseRecommender) (user_id : Int)
    (program_id : String) (program : MasterProgram)
    (hg : rec.db.get_program program_id = some program) :
    List.Sublist ((mandatory_of program).take 10) program.courses ∧
    (∀ c ∈ (mandatory_of program).take 10,
        strContains c.name (get_study_plan rec user_id program_id) = true) ∧
    (∀ cs ∈ recommend_courses rec user_id program_id 5,
        strContains cs.1.name (get_study_plan rec user_id program_id) = true ∧
        strContains (pyFormatPercent0 cs.2) (get_study_plan rec user_id program_id) = true) := by
  have hplan : get_study_plan rec user_id program_id =
      planAfterMandatory rec user_id program_id (rec.db.get_user_profile user_id)
        (if (mandatory_of program).isEmpty
         then "📋 Рекомендованный учебный план: " ++ program.title ++ "\n\n"
         else "📋 Рекомендованный учебный план: " ++ program.title ++ "\n\n"
           ++ "📌 Обязательные дисциплины:\n"
           ++ planMandatorySection ((mandatory_of program).take 10) ++ "\n") := by
    unfold get_study_plan
    rw [hg]
  refine ⟨?_, ?_, ?_⟩
  · exact (List.take_sublist _ _).trans (by unfold mandatory_of; exact List.filter_sublist _)
  · intro c hc
    rw [hplan]
    have hmem : c ∈ mandatory_of program := List.mem_of_mem_take hc
    have hne : (mandatory_of program).isEmpty = false := by
      cases h' : mandatory_of program with
      | nil => rw [h'] at hmem; cases hmem
      | cons x xs => rfl
    apply strContains_planAfterMandatory
    simp only [hne, Bool.false_eq_true, if_false]
    exact strContains_append_left _ _ _
      (strContains_append_right _ _ _ (name_in_planMandatorySection hc))
  · intro cs hcs
    rw [hplan]
    have hne : (recommend_courses rec user_id program_id 5).isEmpty = false := by
      cases h' : recommend_courses rec user_id program_id 5 with
      | nil => rw [h'] at hcs; cases hcs
      | cons x xs => rfl
    constructor
    · exact strContains_planAfterMandatory_sec rec user_id program_id _ _ _ hne
        (name_in_planRecommendedSection hcs)
    · exact strContains_planAfterMandatory_sec rec user_id program_id _ _ _ hne
        (pct_in_planRecommendedSection hcs)

/-- Witness for C4 (amended) on a concrete program. -/
theorem C4_witness :
    c4rec.db.get_program "p1" = some c4Program ∧
      (∀ c ∈ (mandatory_of c4Program).take 10,
        strContains c.name (get_study_plan c4rec 0 "p1") = true) :=
  ⟨rfl, (C4_amended_study_plan c4rec 0 "p1" c4Program rfl).2.1⟩

def c8Course : Course :=
  { name := "ml basics", type := "выборная", credits := "", semester := "",
    description := "" }

def c8Profile : ProfileData := {}

def c8Program : MasterProgram :=
  { id := "p", title := "", url := "", description := "", courses := [c8Course],
    requirements := [], skills := [], career := [] }

/-- C6: under the lexical strategy `recommend_courses` returns the empty
list (and raises nothing — it is a total function) whenever the program
does not exist, the profile is absent/empty, or the program has no
elective course. -/
theorem C6_lexical_graceful_empty (rec : CourseRecommender) (user_id : Int)
    (program_id : String) (limit : Nat)
    (hflag : rec.use_vector_search = false)
    (h : rec.db.get_user_profile user_id = none ∨
        rec.db.get_program program_id = none ∨
        rec.db.get_elective_courses program_id = []) :
    recommend_courses rec user_id program_id limit = [] := by
  unfold recommend_courses
  rw [hflag]
  simp only [Bool.false_eq_true, if_false]
  unfold recommend_courses_classic
  rcases h with h | h | h
  · rw [h]
  · cases hp : rec.db.get_user_profile user_id
    · rfl
    · rw [h]
  · cases hp : rec.db.get_user_profile user_id
    · rfl
    · cases hg : rec.db.get_program program_id
      · rfl
      · simp [h]

def c6rec : CourseRecommender :=
  { db := { programs := [], user_profiles := [] }, use_vector_search := false }

/-- Witness for C6: an empty catalog and profile store. -/
theorem C6_witness :
    c6rec.use_vector_search = false ∧ c6rec.db.get_user_profile 1 = none ∧
      recommend_courses c6rec 1 "ai" 5 = [] :=
  ⟨rfl, rfl, C6_lexical_graceful_empty c6rec 1 "ai" 5 rfl (Or.inl rfl)⟩

/-- C10: with `use_vector_search = False`, `index_courses` (with or
without a program id) and `index_programs` both return 0 and issue no
embedding/upsert call to the vector backend (empty call trace). -/
theorem C10_indexing_disabled (rec : CourseRecommender) (program_id : Option String)
    (hflag : rec.use_vector_search = false) :
    index_courses rec program_id = some (0, []) ∧ index_programs rec = some (0, []) := by
  unfold index_courses index_programs
  rw [hflag]
  simp

/-- Witness for C10 on a concrete disabled engine. -/
theorem C10_witness :
    c6rec.use_vector_search = false ∧
      index_courses c6rec (some "ai") = some (0, []) ∧
      index_programs c6rec = some (0, []) :=
  ⟨rfl, (C10_indexing_disabled c6rec (some "ai") rfl).1,
    (C10_indexing_disabled c6rec (some "ai") rfl).2⟩

def c9rec : CourseRecommender :=
  { db := { programs := [], user_profiles := [] }, use_vector_search := true,
    vector_recommend_courses := fun _ _ _ => [{}] }

/-- C9: under the vector strategy a backend result yields a `(course,
score)` pair only when the program resolves and contains a course whose
name equals the result's stored name; other results are dropped (so the
output can be strictly shorter than the backend's list, as the last
conjunct shows on a concrete engine), and the score is the backend's,
defaulting to 0 when absent. -/
theorem C9_vector_course_join (rec : CourseRecommender) (user_id : Int)
    (program_id : String) (limit : Nat) :
    ((rec.db.get_program program_id = none →
        recommend_courses_vector rec user_id program_id limit = []) ∧
     (recommend_courses_vector rec user_id program_id limit).length ≤
        (rec.vector_recommend_courses user_id program_id limit).length ∧
     (∀ pr ∈ recommend_courses_vector rec user_id program_id limit,
        ∃ r ∈ rec.vector_recommend_courses user_id program_id limit,
          ∃ program, rec.db.get_program program_id = some program ∧
            pr.1 ∈ program.courses ∧ r.name = some pr.1.name ∧
            pr.2 = r.score.getD 0) ∧
     (recommend_courses_vector c9rec 0 "p" 1).length <
        (c9rec.vector_recommend_courses 0 "p" 1).length) := by
  refine ⟨?_, ?_, ?_, ?_⟩
  · intro h
    unfold recommend_courses_vector
    simp [h]
  · exact List.length_filterMap_le _ _
  · intro pr hpr
    unfold recommend_courses_vector at hpr
    rcases List.mem_filterMap.mp hpr with ⟨r, hr, hfr⟩
    refine ⟨r, hr, ?_⟩
    split at hfr
    · cases hfr
    · rename_i program hp
      split at hfr
      · rename_i c hf
        have hpr_eq : (c, r.score.getD 0) = pr := Option.some.inj hfr
        refine ⟨program, hp, ?_, ?_, ?_⟩
        · rw [← hpr_eq]
          exact List.mem_of_find?_eq_some hf
        · have hbeq := List.find?_some hf
          have hname : some c.name = r.name := by simpa [beq_iff_eq] using hbeq
          rw [← hpr_eq]
          exact hname.symm
        · rw [← hpr_eq]
      · cases hfr
  · decide

/-- C7: under the lexical strategy `recommend_program` scores every
program of the catalog (length equals the catalog's, each program appears
with its score) in non-increasing score order with no implicit limit;
under the vector strategy the backend is queried with limit 10, so (the
backend honouring its limit) the output is capped at 10. -/
theorem C7_program_ranking :
    (∀ (rec : CourseRecommender) (user_id : Int) (profile : ProfileData),
        rec.use_vector_search = false →
        rec.db.get_user_profile user_id = some profile →
        ((recommend_program rec user_id).length = (rec.db.get_all_programs).length ∧
         (∀ p ∈ rec.db.get_all_programs,
            (p, calculate_program_match p profile) ∈ recommend_program rec user_id) ∧
         (recommend_program rec user_id).Pairwise (fun a b => b.2 ≤ a.2)))
    ∧ (∀ (rec : CourseRecommender) (user_id : Int),
        rec.use_vector_search = true →
        (rec.vector_recommend_programs user_id 10).length ≤ 10 →
        (recommend_program rec user_id).length ≤ 10) := by
  constructor
  · intro rec user_id profile hflag hp
    unfold recommend_program
    rw [hflag]
    simp only [Bool.false_eq_true, if_false]
    unfold recommend_program_classic
    rw [hp]
    refine ⟨?_, ?_, ?_⟩
    · rw [List.length_mergeSort, List.length_map]
    · intro p hmem
      rw [List.mem_mergeSort]
      exact List.mem_map.mpr ⟨p, hmem, rfl⟩
    · exact pairwise_mergeSort_desc _
  · intro rec user_id hflag hlen
    unfold recommend_program
    rw [hflag]
    simp only [if_true]
    unfold recommend_program_vector
    exact le_trans (List.length_filterMap_le _ _) hlen

/-- Witness for C8 at a concrete matching fragment. -/
theorem C8_witness :
    strContains (pyLower "ml") (courseText c8Course) = true ∧
      calculate_relevance c8Course c8Profile c8Program ≤
        calculate_relevance c8Course
          { c8Profile with interests := c8Profile.interests ++ ["ml"] } c8Program :=
  ⟨by decide, C8_add_matching_interest_monotone c8Course c8Profile c8Program "ml" (by decide)⟩
